import Mathlib

/-!
Verification of the aqi ingestion pipeline (src/v3): the PMS5003 frame
decoder (client/rpi-reader.py), the client transport and retry cache
(client/httpclient.py, datacache.py), and the server side
(server/netreceiver.py, server/pms5003db.py).  Python functions are
shallowly embedded as executable Lean functions; dicts become
association lists, exceptions become Except/Option, and the database
tables become explicit in-memory state.
-/

namespace AqiPipeline

/-! ## EPA AQI conversion (server/pms5003db.py, convert_aqi)

The EPA PM2.5→AQI breakpoint interpolation lives in the external
third-party `aqi` python package (`aqi.to_iaqi(aqi.POLLUTANT_PM25, x,
algo=aqi.ALGO_EPA)`), not in this repository. -/

/-- One row of the EPA PM2.5 breakpoint table: concentrations are in
tenths of µg/m³ (`clo`..`chi`), index values in AQI points
(`ilo`..`ihi`). -/
structure Seg where
  clo : Nat
  chi : Nat
  ilo : Nat
  ihi : Nat
deriving Repr, DecidableEq

/-- Modelled from the spec: the standard EPA PM2.5 breakpoint table
(the external `aqi` library's `ALGO_EPA` table for `POLLUTANT_PM25`),
concentrations scaled to tenths. -/
def epaSegs : List Seg :=
  [⟨0, 120, 0, 50⟩,
   ⟨121, 354, 51, 100⟩,
   ⟨355, 554, 101, 150⟩,
   ⟨555, 1504, 151, 200⟩,
   ⟨1505, 2504, 201, 300⟩,
   ⟨2505, 3504, 301, 400⟩,
   ⟨3505, 5004, 401, 500⟩]

/-- The breakpoint segment containing a (tenths-scaled) concentration:
first segment whose upper concentration bound is not exceeded; the top
segment for anything larger. -/
def segFor (cc : Nat) : Seg :=
  (epaSegs.find? (fun s => decide (cc ≤ s.chi))).getD ⟨3505, 5004, 401, 500⟩

/-- Round `num / den` to the nearest natural, halves up. -/
def rnd (num den : Nat) : Nat := (2 * num + den) / (2 * den)

/-- Modelled from the spec: the standard EPA PM2.5 breakpoint-table AQI
value for an integral PM2.5 concentration `pm` (µg/m³): linear
interpolation within the segment of the breakpoint table that contains
`pm`. -/
def epa_aqi (pm : Nat) : Nat :=
  let cc := 10 * pm
  let s := segFor cc
  s.ilo + rnd ((s.ihi - s.ilo) * (cc - s.clo)) (s.chi - s.clo)

/-- `convert_aqi` from server/pms5003db.py: above a PM2.5 of 500 the
EPA table value at 500 is extended linearly. -/
def convert_aqi (pm : Nat) : Nat :=
  let aqi_input := if pm > 500 then 500 else pm
  let extra := if pm > 500 then pm - 500 else 0
  let aqi_output := epa_aqi aqi_input
  aqi_output + extra

/-! ## PMS5003 frame decoding (client/rpi-reader.py, PM25.read) -/

/-- `PM25.field_names`: the twelve declared field names, in declared
order. -/
def field_names : List String :=
  ["pm10_standard", "pm25_standard", "pm100_standard",
   "pm10_env", "pm25_env", "pm100_env",
   "particles_03um", "particles_05um", "particles_10um",
   "particles_25um", "particles_50um", "particles_100um"]

/-- Read byte `i` of a buffer (0 past the end). -/
def byte (buf : List Nat) (i : Nat) : Nat := buf.getD i 0

/-- `struct.unpack` of one big-endian 16-bit unsigned value at offset
`i` of a byte buffer. -/
def be16 (buf : List Nat) (i : Nat) : Nat :=
  256 * byte buf i + byte buf (i + 1)

/-- The twelve big-endian 16-bit fields packed in `buf[4:28]`
(`struct.unpack of twelve >H values`). -/
def frameFields (buf : List Nat) : List Nat :=
  (List.range 12).map (fun i => be16 buf (4 + 2 * i))

/-- `PM25.read` on a filled 32-byte buffer: check the two sync bytes,
the declared frame length, and the checksum, then bind the twelve
decoded fields to the declared field names in order.  Each failing
check raises (`RuntimeError`), modelled as `Except.error` with the
corresponding message. -/
def pm25_read (buf : List Nat) : Except String (List (String × Nat)) :=
  if byte buf 0 ≠ 0x42 ∨ byte buf 1 ≠ 0x4D then
    .error "Invalid PM2.5 header"
  else if be16 buf 2 ≠ 28 then
    .error "Invalid PM2.5 frame length"
  else if (buf.take 30).sum ≠ be16 buf 30 then
    .error "Invalid PM2.5 checksum"
  else
    .ok (field_names.zip (frameFields buf))

/-! ## Theorems about convert_aqi (claim C2) -/

set_option maxRecDepth 10000 in
theorem epa_aqi_step : ∀ n : Fin 500, epa_aqi n.val ≤ epa_aqi (n.val + 1) := by
  decide

theorem convert_aqi_step (n : Nat) : convert_aqi n ≤ convert_aqi (n + 1) := by
  rcases lt_or_le n 500 with h | h
  · have h1 : ¬ (n > 500) := by omega
    have h2 : ¬ (n + 1 > 500) := by omega
    have := epa_aqi_step ⟨n, h⟩
    simp only [convert_aqi, h1, h2, if_false]
    simpa using this
  · rcases eq_or_lt_of_le h with h0 | h0
    · subst h0
      simp [convert_aqi]
    · have h1 : n > 500 := h0
      have h2 : n + 1 > 500 := by omega
      simp only [convert_aqi, h1, h2, if_true]
      omega

/-- Claim C2: `convert_aqi` is monotonically non-decreasing over all pm
inputs; for every `pm ≤ 500` it equals the standard EPA PM2.5
breakpoint-table AQI value; and for every `pm = 500 + k` with `k > 0`
it equals `convert_aqi 500 + k`. -/
theorem c2_convert_aqi_spec :
    (∀ m n : Nat, m ≤ n → convert_aqi m ≤ convert_aqi n) ∧
    (∀ pm : Nat, pm ≤ 500 → convert_aqi pm = epa_aqi pm) ∧
    (∀ k : Nat, 0 < k → convert_aqi (500 + k) = convert_aqi 500 + k) := by
  refine ⟨monotone_nat_of_le_succ convert_aqi_step, ?_, ?_⟩
  · intro pm hpm
    have h1 : ¬ (pm > 500) := by omega
    simp [convert_aqi, h1]
  · intro k hk
    have h1 : 500 + k > 500 := by omega
    have h2 : ¬ ((500 : Nat) > 500) := by omega
    simp [convert_aqi, h1, h2]

/-- Witness for C2 at concrete inputs. -/
theorem c2_convert_aqi_spec_witness :
    convert_aqi 40 ≤ convert_aqi 700 ∧
    convert_aqi 123 = epa_aqi 123 ∧
    convert_aqi 512 = convert_aqi 500 + 12 :=
  ⟨c2_convert_aqi_spec.1 40 700 (by decide),
   c2_convert_aqi_spec.2.1 123 (by decide),
   c2_convert_aqi_spec.2.2 12 (by decide)⟩

/-! ## Theorems about pm25_read (claims C5 and C6) -/

theorem sum_take30_lt (buf : List Nat) (hbytes : ∀ b ∈ buf, b < 256) :
    (buf.take 30).sum < 65536 := by
  have hle : ∀ b ∈ buf.take 30, b ≤ 255 := by
    intro b hb
    have := hbytes b (List.mem_of_mem_take hb)
    omega
  have h1 : (buf.take 30).sum ≤ (buf.take 30).length * 255 := by
    calc (buf.take 30).sum ≤ (buf.take 30).length • 255 :=
          List.sum_le_card_nsmul _ 255 hle
      _ = (buf.take 30).length * 255 := by simp [smul_eq_mul]
  have h2 : (buf.take 30).length ≤ 30 := by
    simp [List.length_take]
  omega

/-- Claim C5: a 32-byte frame with correct sync bytes, declared length
28, and big-endian checksum equal to `sum (bytes 0..29) mod 65536`
decodes successfully into the twelve big-endian 16-bit fields of bytes
4..27 bound to the twelve declared field names in declared order. -/
theorem c5_pm25_read_valid (buf : List Nat)
    (hlen : buf.length = 32)
    (hbytes : ∀ b ∈ buf, b < 256)
    (h0 : byte buf 0 = 0x42)
    (h1 : byte buf 1 = 0x4D)
    (hfl : be16 buf 2 = 28)
    (hck : be16 buf 30 = (buf.take 30).sum % 65536) :
    pm25_read buf = .ok (field_names.zip (frameFields buf)) := by
  have hlt := sum_take30_lt buf hbytes
  have hck' : (buf.take 30).sum = be16 buf 30 := by
    rw [hck, Nat.mod_eq_of_lt hlt]
  unfold pm25_read
  rw [if_neg (by simp [h0, h1]), if_neg (by simp [hfl]), if_neg (by simp [hck'])]

/-- Witness for C5: a concrete valid frame decodes to the declared
field bindings. -/
theorem c5_pm25_read_valid_witness :
    pm25_read
      [0x42, 0x4D, 0, 28, 0, 1, 0, 0, 0, 0, 0, 0, 0, 0, 0, 0,
       0, 0, 0, 0, 0, 0, 0, 0, 0, 0, 0, 0, 0, 0, 0, 172] =
      .ok [("pm10_standard", 1), ("pm25_standard", 0), ("pm100_standard", 0),
           ("pm10_env", 0), ("pm25_env", 0), ("pm100_env", 0),
           ("particles_03um", 0), ("particles_05um", 0), ("particles_10um", 0),
           ("particles_25um", 0), ("particles_50um", 0), ("particles_100um", 0)] := by
  have h := c5_pm25_read_valid
    [0x42, 0x4D, 0, 28, 0, 1, 0, 0, 0, 0, 0, 0, 0, 0, 0, 0,
     0, 0, 0, 0, 0, 0, 0, 0, 0, 0, 0, 0, 0, 0, 0, 172]
    (by decide) (by decide) (by decide) (by decide) (by decide) (by decide)
  rw [h]
  rfl

/-- Claim C6: a 32-byte frame whose big-endian checksum field does not
equal the sum of bytes 0..29 fails to decode: `pm25_read` returns an
error and hands no field data to the caller. -/
theorem c6_pm25_read_bad_checksum (buf : List Nat)
    (hck : (buf.take 30).sum ≠ be16 buf 30) :
    ∃ e, pm25_read buf = Except.error e := by
  unfold pm25_read
  split_ifs <;> exact ⟨_, rfl⟩

/-- Witness for C6: a concrete frame with a corrupted checksum is
rejected. -/
theorem c6_pm25_read_bad_checksum_witness :
    ∃ e, pm25_read
      [0x42, 0x4D, 0, 28, 0, 1, 0, 0, 0, 0, 0, 0, 0, 0, 0, 0,
       0, 0, 0, 0, 0, 0, 0, 0, 0, 0, 0, 0, 0, 0, 0, 0] = Except.error e :=
  c6_pm25_read_bad_checksum
    [0x42, 0x4D, 0, 28, 0, 1, 0, 0, 0, 0, 0, 0, 0, 0, 0, 0,
     0, 0, 0, 0, 0, 0, 0, 0, 0, 0, 0, 0, 0, 0, 0, 0]
    (by decide)

/-! ## DataCache (datacache.py): the retry buffer -/

/-- Events affecting a `DataCache`: `append r` is `DataCache.append`
from the reader thread; `tick ok` is one iteration of the
`DataCache.run` loop whose `client.insert_batch` call returned `ok`. -/
inductive CacheEv (R : Type) where
  | append (r : R)
  | tick (ok : Bool)
deriving DecidableEq, Repr

/-- The mutable state of a `DataCache`: `cache` is `self.cache`
(filled under the lock by `append`), `to_xmit` is the `to_xmit` local
of the `run` loop, which persists across iterations. -/
structure CacheState (R : Type) where
  cache : List R
  to_xmit : List R
deriving DecidableEq, Repr

/-- The state of a freshly constructed `DataCache`. -/
def initCache {R : Type} : CacheState R := ⟨[], []⟩

/-- One event-step of a `DataCache`.  On a tick, `run` moves the cache
contents into `to_xmit`, clears the cache, and — only when `to_xmit`
is non-empty — hands `to_xmit` to the transport (second component);
the transmitted records are cleared only when the send succeeded. -/
def cacheStep {R : Type} (s : CacheState R) :
    CacheEv R → CacheState R × Option (List R)
  | .append r => (⟨s.cache ++ [r], s.to_xmit⟩, none)
  | .tick ok =>
      let w := s.to_xmit ++ s.cache
      if w.isEmpty then (⟨[], w⟩, none)
      else (⟨[], if ok then [] else w⟩, some w)

/-- Run a `DataCache` over a sequence of events, keeping only the
state. -/
def runCache {R : Type} (s : CacheState R) (es : List (CacheEv R)) : CacheState R :=
  es.foldl (fun t e => (cacheStep t e).1) s

/-- The records appended by a sequence of events, in order. -/
def appended {R : Type} (es : List (CacheEv R)) : List R :=
  es.filterMap (fun e => match e with | .append r => some r | _ => none)

theorem runCache_nil {R : Type} (s : CacheState R) : runCache s [] = s := rfl

theorem runCache_cons {R : Type} (s : CacheState R) (e : CacheEv R)
    (es : List (CacheEv R)) :
    runCache s (e :: es) = runCache (cacheStep s e).1 es := rfl

theorem cacheStep_append {R : Type} (s : CacheState R) (r : R) :
    (cacheStep s (.append r)).1 = ⟨s.cache ++ [r], s.to_xmit⟩ := rfl

theorem cacheStep_tick_false {R : Type} (s : CacheState R) :
    (cacheStep s (.tick false)).1 = ⟨[], s.to_xmit ++ s.cache⟩ := by
  cases h : (s.to_xmit ++ s.cache).isEmpty <;> simp [cacheStep, h]

theorem cacheStep_tick_true_sent {R : Type} (t : CacheState R)
    (h : (t.to_xmit ++ t.cache).isEmpty = false) :
    cacheStep t (.tick true) = (⟨[], []⟩, some (t.to_xmit ++ t.cache)) := by
  simp [cacheStep, h]

theorem appended_nil {R : Type} : appended ([] : List (CacheEv R)) = [] := rfl

theorem appended_append_cons {R : Type} (r : R) (es : List (CacheEv R)) :
    appended (.append r :: es) = r :: appended es := rfl

theorem appended_tick_cons {R : Type} (b : Bool) (es : List (CacheEv R)) :
    appended (.tick b :: es) = appended es := rfl

theorem runCache_pending {R : Type} (es : List (CacheEv R)) :
    ∀ (s : CacheState R), (∀ e ∈ es, e ≠ CacheEv.tick true) →
      (runCache s es).to_xmit ++ (runCache s es).cache =
        s.to_xmit ++ s.cache ++ appended es := by
  induction es with
  | nil => intro s _; simp [runCache_nil, appended_nil]
  | cons e es ih =>
    intro s hes
    have hes' : ∀ x ∈ es, x ≠ CacheEv.tick true := fun x hx => hes x (by simp [hx])
    cases e with
    | append r =>
      rw [runCache_cons, cacheStep_append, appended_append_cons,
        ih ⟨s.cache ++ [r], s.to_xmit⟩ hes']
      simp [List.append_assoc]
    | tick ok =>
      cases ok with
      | true => exact absurd rfl (hes (CacheEv.tick true) (by simp))
      | false =>
        rw [runCache_cons, cacheStep_tick_false, appended_tick_cons,
          ih ⟨[], s.to_xmit ++ s.cache⟩ hes']
        simp

/-- Claim C3: if `N` records are appended (in any interleaving with
failing ticks, every send failing), then on the next successful tick
the transport receives exactly the appended records, each once, in
append order — and the buffer then holds nothing, so none of them is
ever handed to a later successful send again. -/
theorem c3_retrybuffer_no_loss {R : Type} (es : List (CacheEv R))
    (hes : ∀ e ∈ es, e ≠ CacheEv.tick true)
    (hne : appended es ≠ []) :
    (cacheStep (runCache initCache es) (.tick true)).2 = some (appended es) ∧
    (cacheStep (runCache initCache es) (.tick true)).1 = ⟨[], []⟩ := by
  have hp : (runCache initCache es).to_xmit ++ (runCache initCache es).cache =
      appended es := by
    simpa [initCache] using runCache_pending es initCache hes
  have hemp : ((runCache initCache es).to_xmit ++
      (runCache initCache es).cache).isEmpty = false := by
    rw [hp]
    simpa [List.isEmpty_iff] using hne
  rw [cacheStep_tick_true_sent _ hemp, hp]
  exact ⟨rfl, rfl⟩

/-- Witness for C3: three records appended around two failing ticks
are all delivered, in order, by the next successful tick. -/
theorem c3_retrybuffer_no_loss_witness :
    (cacheStep (runCache initCache
        [CacheEv.append 1, CacheEv.tick false, CacheEv.append 2,
         CacheEv.tick false, CacheEv.append 3]) (.tick true)).2 =
      some [1, 2, 3] ∧
    (cacheStep (runCache initCache
        [CacheEv.append 1, CacheEv.tick false, CacheEv.append 2,
         CacheEv.tick false, CacheEv.append 3]) (.tick true)).1 = ⟨[], []⟩ := by
  have h := c3_retrybuffer_no_loss (R := Nat)
    [CacheEv.append 1, CacheEv.tick false, CacheEv.append 2,
     CacheEv.tick false, CacheEv.append 3]
    (by decide) (by decide)
  exact ⟨by rw [h.1]; rfl, h.2⟩

/-! ## Client transport time conversion (client/httpclient.py) -/

/-- The `time` field of a client-side record: either still a
`datetime.datetime` (carrying the epoch value its `timestamp()` method
would return) or already a number. -/
inductive TimeVal where
  | dt (epoch : Int)
  | num (epoch : Int)
deriving DecidableEq, Repr

/-- The per-record conversion in `DataClient.insert_batch`: a `time`
that is still a `datetime` is replaced by `rec.time.timestamp()`; any
other value is left alone. -/
def convert_rec_time : TimeVal → TimeVal
  | .dt e => .num e
  | .num x => .num x

/-- The conversion loop of `DataClient.insert_batch` over the record
list. -/
def client_convert_times (l : List TimeVal) : List TimeVal :=
  l.map convert_rec_time

/-- Claim C9: the client-side time conversion is idempotent — running
`DataClient.insert_batch`'s conversion loop again over an
already-converted list (as happens when the `DataCache` retries a
failed batch verbatim) changes nothing, and a numeric time is never
touched. -/
theorem c9_time_conversion_idempotent :
    (∀ l : List TimeVal,
      client_convert_times (client_convert_times l) = client_convert_times l) ∧
    (∀ x : Int, convert_rec_time (.num x) = .num x) := by
  constructor
  · intro l
    simp only [client_convert_times, List.map_map]
    refine List.map_congr_left ?_
    intro t _
    cases t <;> rfl
  · intro x
    rfl

/-! ## Server normalizer/store (server/pms5003db.py, PMS5003Database)

Python dicts are embedded as association lists with unique keys kept
in insertion order; `d[k] = v` replaces in place or appends.  The
postgres tables become lists in a `DbState`; `received_at` (a wall
clock) is omitted.  Sensor values are embedded as naturals, matching
the 16-bit fields the PMS5003 clients produce. -/

/-- Association-list lookup: python `dict.get` (first, and only,
binding of the key). -/
def alookup {α β : Type} [DecidableEq α] (k : α) : List (α × β) → Option β
  | [] => none
  | (k', v) :: rest => if k' = k then some v else alookup k rest

/-- Association-list write: python `d[k] = v` — replace the binding in
place if the key is present, append it otherwise. -/
def aset {α β : Type} [DecidableEq α] (k : α) (v : β) : List (α × β) → List (α × β)
  | [] => [(k, v)]
  | (k', v') :: rest => if k' = k then (k, v) :: rest else (k', v') :: aset k v rest

/-- A decoded wire record, after `record.pop` of the `time` key: the
timestamp plus the remaining field dict. -/
structure SensorRec where
  time : Nat
  fields : List (String × Nat)
deriving DecidableEq, Repr

/-- One row of the `sensordatav4_tsdb` time-series table (without
`received_at`). -/
structure Row where
  time : Nat
  sensorid : Nat
  datatype : Nat
  value : Nat
deriving DecidableEq, Repr

/-- The server-side store: the two name→id tables loaded at startup,
the append-only time-series table, and the latest-value table keyed by
`(sensorid, datatype)`. -/
structure DbState where
  sensornames : List (String × Nat)
  datatypes : List (String × Nat)
  tsdb : List Row
  latest : List ((Nat × Nat) × Row)
deriving DecidableEq, Repr

/-- `get_sensorid_by_name` applied to an optional name
(`dict.get(None)` is `None`). -/
def lookupName (tbl : List (String × Nat)) : Option String → Option Nat
  | some n => alookup n tbl
  | none => none

/-- The sensor-identity resolution at the top of
`PMS5003Database.insert_batch`: `if not sensorid: sensorid =
get_sensorid_by_name(sensorname)`, then `if not sensorid: raise`.
Python truthiness makes both `None` and `0` fall through to the name
lookup, and makes a resolved id of `0` raise. -/
def resolve_sensorid (tbl : List (String × Nat)) (sensorname : Option String)
    (sensorid : Option Nat) : Except String Nat :=
  let sid0 := match sensorid with
              | some n => if n = 0 then lookupName tbl sensorname else some n
              | none => lookupName tbl sensorname
  match sid0 with
  | some n => if n = 0 then Except.error "unknown sensor name" else Except.ok n
  | none => Except.error "unknown sensor name"

/-- The AQI-derivation step of `insert_batch`: a record carrying a
`pm2.5` field gets an `aqi2.5` field set to `convert_aqi` of it. -/
def addAqi (r : SensorRec) : SensorRec :=
  match alookup "pm2.5" r.fields with
  | some v => ⟨r.time, aset "aqi2.5" (convert_aqi v) r.fields⟩
  | none => r

/-- The per-record loop body of `insert_batch`: derive `aqi2.5`, then
turn every field whose name resolves to a (truthy) datatype id into a
time-series row; unknown fields are dropped with a warning. -/
def normalize_record (datatypes : List (String × Nat)) (sensorid : Nat)
    (r : SensorRec) : List Row :=
  (addAqi r).fields.filterMap (fun kv =>
    match alookup kv.1 datatypes with
    | some dt => if dt = 0 then none else some ⟨r.time, sensorid, dt, kv.2⟩
    | none => none)

/-- One step of the `latest` dict computation in `insert_batch`: keep,
per datatype, the insertion with the strictly greatest time (the first
such insertion on ties). -/
def updLatest (acc : List (Nat × Row)) (row : Row) : List (Nat × Row) :=
  match alookup row.datatype acc with
  | none => acc ++ [(row.datatype, row)]
  | some old => if old.time < row.time then aset row.datatype row acc else acc

/-- `latest.values()` after folding the whole insertion list. -/
def computeLatest (rows : List Row) : List Row :=
  (rows.foldl updLatest []).map (fun kv => kv.2)

/-- The `insert ... on conflict (sensorid, datatype) do update set
time=excluded.time, value=excluded.value` upsert for one row: it
overwrites unconditionally — there is no time-comparison guard. -/
def upsertLatest1 (tbl : List ((Nat × Nat) × Row)) (row : Row) :
    List ((Nat × Nat) × Row) :=
  aset (row.sensorid, row.datatype) row tbl

/-- The bulk upsert over `latest.values()`. -/
def upsertLatest (tbl : List ((Nat × Nat) × Row)) (rows : List Row) :
    List ((Nat × Nat) × Row) :=
  rows.foldl upsertLatest1 tbl

/-- `PMS5003Database.insert_batch`: resolve the sensor id, reject an
empty record list, normalize every record into rows, append all of
them to the time-series table in one transaction, and upsert the
per-datatype newest row of the batch into the latest table.  There is
no chunking and no deadline: the whole insertion list is handed to one
`execute_values` call. -/
def insert_batch (db : DbState) (sensorname : Option String)
    (sensorid : Option Nat) (recordlist : List SensorRec) : Except String DbState :=
  match resolve_sensorid db.sensornames sensorname sensorid with
  | .error e => .error e
  | .ok sid =>
    if recordlist.isEmpty then .error "empty record list"
    else
      let ins := recordlist.flatMap (normalize_record db.datatypes sid)
      .ok { db with
              tsdb := db.tsdb ++ ins,
              latest := upsertLatest db.latest (computeLatest ins) }

/-! ## IngestService (server/netreceiver.py, SensorDataHandler.data)

The sha256 digest computation (`hashlib`) is an external library; the
handler is parameterized over the digest function `H`, where `H salt
password` stands for `sha256(salt.encode(utf8) ++ password
bytes).digest()` as a byte list.  `binascii.unhexlify` and
`bytes.hex()` are embedded concretely. -/

/-- The value of one hex digit; `binascii.unhexlify` accepts both
cases. -/
def hexDigitVal (c : Char) : Option Nat :=
  if '0' ≤ c ∧ c ≤ '9' then some (c.toNat - '0'.toNat)
  else if 'a' ≤ c ∧ c ≤ 'f' then some (c.toNat - 'a'.toNat + 10)
  else if 'A' ≤ c ∧ c ≤ 'F' then some (c.toNat - 'A'.toNat + 10)
  else none

/-- `binascii.unhexlify` over a character list: pairs of hex digits;
`none` models the `binascii.Error` raised on an odd-length or non-hex
input. -/
def unhexlifyChars : List Char → Option (List Nat)
  | [] => some []
  | [_] => none
  | c1 :: c2 :: rest =>
    match hexDigitVal c1, hexDigitVal c2, unhexlifyChars rest with
    | some h, some l, some bs => some ((16 * h + l) :: bs)
    | _, _, _ => none

/-- `binascii.unhexlify` on a string. -/
def unhexlify (s : String) : Option (List Nat) := unhexlifyChars s.data

/-- One lowercase hex digit, as produced by `bytes.hex()`. -/
def hexDigitChar (n : Nat) : Char :=
  if n < 10 then Char.ofNat (48 + n) else Char.ofNat (97 + n - 10)

/-- `bytes.hex()`: the canonical lowercase hex spelling of a byte
list (what the client puts in the `auth` field). -/
def bytesToHex (bs : List Nat) : String :=
  ⟨bs.flatMap (fun b => [hexDigitChar (b / 16), hexDigitChar (b % 16)])⟩

/-- A parsed JSON request body at the data endpoint.  `Option` fields
model key presence; `clowny` is the `clowny-cleartext-password`
field. -/
structure Msg where
  salt : Option String
  auth : Option String
  clowny : Option String
  sensorname : Option String
  sensorid : Option Nat
  sensordata : List SensorRec
deriving DecidableEq, Repr

/-- The authenticated tail of `SensorDataHandler.data`: epoch times
are converted back to timestamps (a bijection, embedded as the
identity on `SensorRec.time`) and the batch goes to
`PMS5003Database.insert_batch`; an exception escaping `insert_batch`
is turned into a 500 by cherrypy, persisting nothing. -/
def handleAuthed (db : DbState) (m : Msg) : Nat × DbState :=
  match insert_batch db m.sensorname m.sensorid m.sensordata with
  | .error _ => (500, db)
  | .ok db' => (200, db')

/-- `SensorDataHandler.data` after JSON parsing, as a function from
the parsed message to the HTTP status and the resulting store.  With
`salt` and `auth` both present the salted-hash scheme alone decides:
`expected = H salt password` is compared against
`unhexlify(msg.auth)`, a non-hex `auth` raising through to a 500.
Otherwise a present `clowny-cleartext-password` is string-compared;
with neither scheme the request is denied. -/
def handler (H : String → String → List Nat) (password : String)
    (db : DbState) (m : Msg) : Nat × DbState :=
  match m.salt, m.auth with
  | some s, some a =>
    match unhexlify a with
    | none => (500, db)
    | some actual => if H s password ≠ actual then (403, db) else handleAuthed db m
  | _, _ =>
    match m.clowny with
    | some c => if c ≠ password then (403, db) else handleAuthed db m
    | none => (403, db)

/-! ## Theorems about the latest-value upsert (claim C1) -/

theorem alookup_aset_self {α β : Type} [DecidableEq α] (k : α) (v : β) :
    ∀ l : List (α × β), alookup k (aset k v l) = some v := by
  intro l
  induction l with
  | nil => simp [aset, alookup]
  | cons p rest ih =>
    obtain ⟨k', v'⟩ := p
    by_cases h : k' = k
    · simp [aset, h, alookup]
    · simp [aset, h, alookup, ih]

theorem resolve_sensorid_id (tbl : List (String × Nat)) (sn : Option String)
    (sid : Nat) (h : sid ≠ 0) :
    resolve_sensorid tbl sn (some sid) = .ok sid := by
  simp [resolve_sensorid, h]

theorem normalize_record_single (dts : List (String × Nat)) (sid dtid t v : Nat)
    (f : String) (hdt : alookup f dts = some dtid) (hdt0 : dtid ≠ 0)
    (hf : f ≠ "pm2.5") :
    normalize_record dts sid ⟨t, [(f, v)]⟩ = [⟨t, sid, dtid, v⟩] := by
  simp [normalize_record, addAqi, alookup, hf, hdt, hdt0]

/-- Claim C1 (amended): within a single `insert_batch` call the latest
row for a `(sensor, datatype)` pair does get `time = max t1 t2`, in
either record order, and the same holds across two calls when the
older point arrives first; but when the batches arrive newest-first,
the unconditional upsert lets the later (older) batch overwrite, so
the stored time regresses — see the counterexample. -/
theorem c1_latest_upsert_amended (db : DbState) (f : String)
    (dtid sid t1 t2 v1 v2 : Nat)
    (hdt : alookup f db.datatypes = some dtid) (hdt0 : dtid ≠ 0)
    (hf : f ≠ "pm2.5") (hsid : sid ≠ 0) (hlt : t1 < t2) :
    ((insert_batch db none (some sid) [⟨t1, [(f, v1)]⟩, ⟨t2, [(f, v2)]⟩]).toOption.map
        (fun d => alookup (sid, dtid) d.latest) = some (some ⟨t2, sid, dtid, v2⟩)) ∧
    ((insert_batch db none (some sid) [⟨t2, [(f, v2)]⟩, ⟨t1, [(f, v1)]⟩]).toOption.map
        (fun d => alookup (sid, dtid) d.latest) = some (some ⟨t2, sid, dtid, v2⟩)) ∧
    (∀ db1 db2 : DbState,
      insert_batch db none (some sid) [⟨t1, [(f, v1)]⟩] = .ok db1 →
      insert_batch db1 none (some sid) [⟨t2, [(f, v2)]⟩] = .ok db2 →
      alookup (sid, dtid) db2.latest = some ⟨t2, sid, dtid, v2⟩) := by
  have hres := resolve_sensorid_id db.sensornames none sid hsid
  have hn1 := normalize_record_single db.datatypes sid dtid t1 v1 f hdt hdt0 hf
  have hn2 := normalize_record_single db.datatypes sid dtid t2 v2 f hdt hdt0 hf
  have hnlt : ¬ (t2 < t1) := by omega
  refine ⟨?_, ?_, ?_⟩
  · simp only [insert_batch, hres, List.isEmpty_cons, List.flatMap_cons,
      List.flatMap_nil, hn1, hn2, computeLatest]
    simp [Except.toOption, updLatest, alookup, aset, hlt, upsertLatest,
      upsertLatest1, alookup_aset_self]
  · simp only [insert_batch, hres, List.isEmpty_cons, List.flatMap_cons,
      List.flatMap_nil, hn1, hn2, computeLatest]
    simp [Except.toOption, updLatest, alookup, aset, hnlt, upsertLatest,
      upsertLatest1, alookup_aset_self]
  · intro db1 db2 h1 h2
    have e1 : insert_batch db none (some sid) [⟨t1, [(f, v1)]⟩] =
        .ok { db with
                tsdb := db.tsdb ++ [⟨t1, sid, dtid, v1⟩],
                latest := aset (sid, dtid) (⟨t1, sid, dtid, v1⟩ : Row) db.latest } := by
      simp [insert_batch, hres, hn1, computeLatest, updLatest, alookup,
        upsertLatest, upsertLatest1]
    rw [e1] at h1
    injection h1 with h1'
    subst h1'
    have e2 : insert_batch
        { db with
            tsdb := db.tsdb ++ [⟨t1, sid, dtid, v1⟩],
            latest := aset (sid, dtid) (⟨t1, sid, dtid, v1⟩ : Row) db.latest }
        none (some sid) [⟨t2, [(f, v2)]⟩] =
        .ok { db with
                tsdb := (db.tsdb ++ [⟨t1, sid, dtid, v1⟩]) ++ [⟨t2, sid, dtid, v2⟩],
                latest := aset (sid, dtid) (⟨t2, sid, dtid, v2⟩ : Row)
                  (aset (sid, dtid) (⟨t1, sid, dtid, v1⟩ : Row) db.latest) } := by
      simp [insert_batch, resolve_sensorid_id _ none sid hsid,
        normalize_record_single _ sid dtid t2 v2 f hdt hdt0 hf,
        computeLatest, updLatest, alookup, upsertLatest, upsertLatest1]
    rw [e2] at h2
    injection h2 with h2'
    subst h2'
    exact alookup_aset_self (sid, dtid) (⟨t2, sid, dtid, v2⟩ : Row) _

/-- Witness for C1 (amended) at concrete inputs. -/
theorem c1_latest_upsert_amended_witness :
    ((insert_batch ⟨[("a", 1)], [("pm1.0", 7)], [], []⟩ none (some 1)
        [⟨1000, [("pm1.0", 5)]⟩, ⟨2000, [("pm1.0", 9)]⟩]).toOption.map
        (fun d => alookup (1, 7) d.latest) = some (some ⟨2000, 1, 7, 9⟩)) ∧
    ((insert_batch ⟨[("a", 1)], [("pm1.0", 7)], [], []⟩ none (some 1)
        [⟨2000, [("pm1.0", 9)]⟩, ⟨1000, [("pm1.0", 5)]⟩]).toOption.map
        (fun d => alookup (1, 7) d.latest) = some (some ⟨2000, 1, 7, 9⟩)) := by
  have h := c1_latest_upsert_amended ⟨[("a", 1)], [("pm1.0", 7)], [], []⟩
    "pm1.0" 7 1 1000 2000 5 9 rfl (by decide) (by decide) (by decide) (by decide)
  exact ⟨h.1, h.2.1⟩

/-- Counterexample to claim C1 as stated: with the two points for
`(sensor 1, datatype 7)` arriving in separate batches, newest first,
the final stored latest row has time 1000, not `max 1000 2000`: the
unconditional `ON CONFLICT DO UPDATE` lets the older point replace the
stored newer one. -/
theorem c1_latest_counterexample :
    ((insert_batch ⟨[("a", 1)], [("pm1.0", 7)], [], []⟩ (some "a") none
        [⟨2000, [("pm1.0", 5)]⟩]).toOption.bind
      (fun db1 => (insert_batch db1 (some "a") none
        [⟨1000, [("pm1.0", 6)]⟩]).toOption)).map
      (fun db2 => alookup (1, 7) db2.latest) = some (some ⟨1000, 1, 7, 6⟩) ∧
    (1000 : Nat) ≠ max 1000 2000 := by
  exact ⟨rfl, by decide⟩

/-! ## Theorems about sensor identity resolution (claim C4) -/

theorem insert_batch_resolve_error (db : DbState) (sn : Option String)
    (sid : Option Nat) (rl : List SensorRec) (e : String)
    (hres : resolve_sensorid db.sensornames sn sid = .error e) :
    insert_batch db sn sid rl = .error e := by
  simp [insert_batch, hres]

/-- Claim C4 (amended): `insert_batch` prefers the NUMERIC id, not the
name: a truthy `sensorid` wins outright and the name lookup is only
performed when the numeric id is absent (or 0); a request carrying
neither a resolvable name nor a truthy id raises, which the service
surfaces as a 500. -/
theorem c4_sensor_resolution_amended :
    (∀ (tbl : List (String × Nat)) (sn : Option String) (sid : Nat), sid ≠ 0 →
      resolve_sensorid tbl sn (some sid) = .ok sid) ∧
    (∀ (tbl : List (String × Nat)) (name : String) (v : Nat),
      alookup name tbl = some v → v ≠ 0 →
      resolve_sensorid tbl (some name) none = .ok v) ∧
    (∀ (H : String → String → List Nat) (pw : String) (db : DbState) (m : Msg)
       (e : String),
      m.salt = none → m.clowny = some pw →
      resolve_sensorid db.sensornames m.sensorname m.sensorid = .error e →
      handler H pw db m = (500, db)) := by
  refine ⟨?_, ?_, ?_⟩
  · intro tbl sn sid h
    exact resolve_sensorid_id tbl sn sid h
  · intro tbl name v hv hv0
    simp [resolve_sensorid, lookupName, hv, hv0]
  · intro H pw db m e hsalt hclowny hres
    obtain ⟨msalt, mauth, mclowny, mn, mi, md⟩ := m
    simp only at hsalt hclowny hres
    subst hsalt
    subst hclowny
    have hib : insert_batch db mn mi md = .error e :=
      insert_batch_resolve_error db mn mi md e hres
    cases mauth <;> simp [handler, handleAuthed, hib]

/-- Witness for C4 (amended) at concrete inputs. -/
theorem c4_sensor_resolution_amended_witness :
    resolve_sensorid [("a", 1)] (some "a") (some 2) = .ok 2 ∧
    resolve_sensorid [("a", 1)] (some "a") none = .ok 1 ∧
    handler (fun _ _ => []) "p" ⟨[("a", 1)], [("pm1.0", 7)], [], []⟩
        ⟨none, none, some "p", some "b", none, [⟨1000, [("pm1.0", 5)]⟩]⟩ =
      (500, ⟨[("a", 1)], [("pm1.0", 7)], [], []⟩) :=
  ⟨c4_sensor_resolution_amended.1 [("a", 1)] (some "a") 2 (by decide),
   c4_sensor_resolution_amended.2.1 [("a", 1)] "a" 1 rfl (by decide),
   c4_sensor_resolution_amended.2.2 (fun _ _ => []) "p"
     ⟨[("a", 1)], [("pm1.0", 7)], [], []⟩
     ⟨none, none, some "p", some "b", none, [⟨1000, [("pm1.0", 5)]⟩]⟩
     "unknown sensor name" rfl rfl rfl⟩

/-- Counterexample to claim C4 as stated: a request carrying a
resolvable name ("a" → id 1) AND a numeric id (2) attributes all rows
to the numeric id 2 — the name lookup is not even consulted — whereas
the claim says the name-resolved id 1 must win. -/
theorem c4_sensor_resolution_counterexample :
    insert_batch ⟨[("a", 1)], [("pm1.0", 7)], [], []⟩ (some "a") (some 2)
        [⟨1000, [("pm1.0", 5)]⟩] =
      .ok ⟨[("a", 1)], [("pm1.0", 7)], [⟨1000, 2, 7, 5⟩],
           [((2, 7), ⟨1000, 2, 7, 5⟩)]⟩ ∧
    alookup "a" [("a", 1)] = some 1 ∧ (2 : Nat) ≠ 1 :=
  ⟨rfl, rfl, by decide⟩

/-! ## Theorems about batch insertion size behaviour (claim C8) -/

/-- Claim C8 (amended): `insert_batch` performs NO chunking and obeys
NO wall-clock deadline — for every resolvable batch the whole
normalized insertion list is appended to the time-series table in one
call, whatever its size, and the latest upsert sees all of it; no tail
is ever dropped. -/
theorem c8_no_chunking_no_deadline (db : DbState) (sn : Option String)
    (sid : Option Nat) (rl : List SensorRec) (sidr : Nat)
    (hres : resolve_sensorid db.sensornames sn sid = .ok sidr)
    (hne : rl.isEmpty = false) :
    insert_batch db sn sid rl =
      .ok { db with
              tsdb := db.tsdb ++ rl.flatMap (normalize_record db.datatypes sidr),
              latest := upsertLatest db.latest
                (computeLatest (rl.flatMap (normalize_record db.datatypes sidr))) } := by
  simp [insert_batch, hres, hne]

/-- Witness for C8 (amended) at a concrete input. -/
theorem c8_no_chunking_no_deadline_witness :
    insert_batch ⟨[("a", 1)], [("pm1.0", 7)], [], []⟩ (some "a") none
        [⟨1, [("pm1.0", 2)]⟩] =
      .ok { sensornames := [("a", 1)], datatypes := [("pm1.0", 7)],
            tsdb := [] ++ [⟨1, [("pm1.0", 2)]⟩].flatMap
              (normalize_record [("pm1.0", 7)] 1),
            latest := upsertLatest []
              (computeLatest ([⟨1, [("pm1.0", 2)]⟩].flatMap
                (normalize_record [("pm1.0", 7)] 1))) } :=
  c8_no_chunking_no_deadline ⟨[("a", 1)], [("pm1.0", 7)], [], []⟩ (some "a") none
    [⟨1, [("pm1.0", 2)]⟩] 1 rfl rfl

set_option maxRecDepth 200000 in
/-- Counterexample to claim C8 as stated: a batch normalizing to 2001
rows — larger than the claimed ~2000-row chunk bound — is inserted in
full: the time-series table receives all 2001 rows, the last record's
row included; no chunk boundary exists and no tail is dropped. -/
theorem c8_oversized_batch_counterexample :
    ((insert_batch ⟨[("a", 1)], [("pm1.0", 7)], [], []⟩ (some "a") none
        ((List.range 2001).map (fun i => ⟨i, [("pm1.0", i)]⟩))).toOption.map
      (fun d => (d.tsdb.length, d.tsdb.getLast?))) =
      some (2001, some ⟨2000, 1, 7, 2000⟩) ∧ 2000 < 2001 := by
  constructor
  · rfl
  · decide

/-! ## Theorems about endpoint authentication (claims C7 and C10) -/

/-- Claim C7 (amended): a request whose `auth` field hex-decodes to a
byte string different from the digest `H salt password` is answered
with 403 and persists nothing — the store is returned untouched, so no
time-series row and no latest-projection row is written.  (As stated
the claim fails: an `auth` value that is not a hex string at all makes
`binascii.unhexlify` raise, surfacing as a 500 rather than a 403 — see
the counterexample — and a non-canonical hex spelling of the correct
digest is accepted, since the comparison is between decoded bytes.) -/
theorem c7_bad_digest_rejected (H : String → String → List Nat) (pw : String)
    (db : DbState) (m : Msg) (s a : String) (bs : List Nat)
    (hs : m.salt = some s) (ha : m.auth = some a)
    (hdec : unhexlify a = some bs) (hne : bs ≠ H s pw) :
    handler H pw db m = (403, db) := by
  have hne' : H s pw ≠ bs := fun h => hne h.symm
  obtain ⟨msalt, mauth, mclowny, mn, mi, md⟩ := m
  simp only at hs ha
  subst hs
  subst ha
  simp [handler, hdec, hne']

/-- Witness for C7 (amended) at concrete inputs. -/
theorem c7_bad_digest_rejected_witness :
    handler (fun _ _ => [0]) "p" ⟨[("a", 1)], [("pm1.0", 7)], [], []⟩
        ⟨some "S", some "ff", none, some "a", none, [⟨1000, [("pm1.0", 5)]⟩]⟩ =
      (403, ⟨[("a", 1)], [("pm1.0", 7)], [], []⟩) :=
  c7_bad_digest_rejected (fun _ _ => [0]) "p"
    ⟨[("a", 1)], [("pm1.0", 7)], [], []⟩
    ⟨some "S", some "ff", none, some "a", none, [⟨1000, [("pm1.0", 5)]⟩]⟩
    "S" "ff" [255] rfl rfl rfl (by decide)

/-- Counterexample to claim C7 as stated: with the digest function
fixed to return `[171]` (hex "ab"), a request whose `auth` field is
"zz" — which certainly differs from the hex digest — is answered with
a 500 (the `binascii.unhexlify` exception), not the claimed 403.
Nothing is persisted either way. -/
theorem c7_bad_digest_counterexample :
    handler (fun _ _ => [171]) "p" ⟨[("a", 1)], [("pm1.0", 7)], [], []⟩
        ⟨some "S", some "zz", none, some "a", none, [⟨1000, [("pm1.0", 5)]⟩]⟩ =
      (500, ⟨[("a", 1)], [("pm1.0", 7)], [], []⟩) ∧
    "zz" ≠ bytesToHex [171] ∧ (500 : Nat) ≠ 403 :=
  ⟨rfl, by decide, by decide⟩

/-- Claim C10: when a request carries both `salt` and `auth`, the
salted-hash branch alone decides the outcome — the
`clowny-cleartext-password` field is entirely ignored, whatever its
value; and a request carrying none of the three auth fields is
rejected with 403 and persists nothing. -/
theorem c10_auth_scheme_precedence :
    (∀ (H : String → String → List Nat) (pw : String) (db : DbState) (m : Msg)
       (s a : String), m.salt = some s → m.auth = some a →
       ∀ c : Option String,
         handler H pw db { m with clowny := c } = handler H pw db m) ∧
    (∀ (H : String → String → List Nat) (pw : String) (db : DbState) (m : Msg),
       (m.salt = none ∨ m.auth = none) → m.clowny = none →
       handler H pw db m = (403, db)) := by
  constructor
  · intro H pw db m s a hs ha c
    obtain ⟨msalt, mauth, mclowny, mn, mi, md⟩ := m
    simp only at hs ha
    subst hs
    subst ha
    simp [handler, handleAuthed]
  · intro H pw db m hsa hc
    obtain ⟨msalt, mauth, mclowny, mn, mi, md⟩ := m
    simp only at hsa hc
    subst hc
    rcases hsa with h | h
    · subst h
      cases mauth <;> simp [handler]
    · subst h
      cases msalt <;> simp [handler]

/-- Witness for C10 at concrete inputs: a matching cleartext password
alongside salt/auth changes nothing, and a request with no auth fields
at all is a 403. -/
theorem c10_auth_scheme_precedence_witness :
    handler (fun _ _ => [171]) "p" ⟨[("a", 1)], [("pm1.0", 7)], [], []⟩
        ⟨some "S", some "aa", some "p", some "a", none, [⟨1000, [("pm1.0", 5)]⟩]⟩ =
      handler (fun _ _ => [171]) "p" ⟨[("a", 1)], [("pm1.0", 7)], [], []⟩
        ⟨some "S", some "aa", none, some "a", none, [⟨1000, [("pm1.0", 5)]⟩]⟩ ∧
    handler (fun _ _ => [171]) "p" ⟨[("a", 1)], [("pm1.0", 7)], [], []⟩
        ⟨none, none, none, some "a", none, [⟨1000, [("pm1.0", 5)]⟩]⟩ =
      (403, ⟨[("a", 1)], [("pm1.0", 7)], [], []⟩) :=
  ⟨c10_auth_scheme_precedence.1 (fun _ _ => [171]) "p"
     ⟨[("a", 1)], [("pm1.0", 7)], [], []⟩
     ⟨some "S", some "aa", none, some "a", none, [⟨1000, [("pm1.0", 5)]⟩]⟩
     "S" "aa" rfl rfl (some "p"),
   c10_auth_scheme_precedence.2 (fun _ _ => [171]) "p"
     ⟨[("a", 1)], [("pm1.0", 7)], [], []⟩
     ⟨none, none, none, some "a", none, [⟨1000, [("pm1.0", 5)]⟩]⟩
     (Or.inl rfl) rfl⟩

end AqiPipeline
